import Mathlib

/-!
Shallow embedding of `fernbus` (src/src/fernbus/main.py): a scraper that drives
a headless-browser (dryscrape) session against busliniensuche.de, waits for
asynchronous results, and parses each result fragment into a `Connection`
record.

Collaborator interactions (browser session / lxml document) are modelled as an
explicit event trace; the page content is a `Fixture` (the probe states seen by
the polling predicate, plus the list of result fragments that the final
`cssselect('div.search-result')` returns).

lxml semantics used by the model: `node.xpath(path)[0]` raises `IndexError`
when the path has no match (node absent), while a present element's `.text`
attribute may be `None`.  Hence every sub-node lookup of a fragment is an
`Option (Option String)`: `none` = node absent (lookup raises), `some none` =
node present but with no text, `some (some s)` = node present with text `s`.
-/

namespace Fernbus

/-- One observable collaborator call made by the pipeline (a browser-session or
document-query operation, or a diagnostic-artifact write).  `closeSession`
models a session release/close call; the source never performs one, but the
constructor is present so that its absence from traces is expressible. -/
inductive Event
  | newSession
  | setAttribute (name : String) (value : Bool)
  | visit (url : String)
  | atCss (selector : String)
  | setField (selector value : String)
  | click (selector : String)
  | cssSelect (selector : String)
  | render (file : String)
  | writeFile (file : String)
  | closeSession
  deriving DecidableEq, Repr

/-- The detail of a fragment-parse fault, modelling the Python exception (and
its traceback, embedded in the `BusliniensucheParsingError` message):
`missingField f` = an `xpath(...)[0]` lookup raised `IndexError` for sub-node
`f`; `priceTextNone` = the price node's `.text` was `None` so `.split()` raised
`AttributeError`; `priceTextEmpty` = the price text was all whitespace so
`.split()[0]` raised `IndexError`; `badPrice s` = `float()` on the
comma-substituted token failed (`ValueError`). -/
inductive ParseFault
  | missingField (name : String)
  | priceTextNone
  | priceTextEmpty
  | badPrice (token : String)
  deriving DecidableEq, Repr

/-- Exceptions the body of `results_are_ready` can raise (all swallowed by its
bare `except`): `indexError` from `results[0]` on an empty selection,
`typeError` from `re.search` applied to a `None` text. -/
inductive PyErr
  | indexError
  | typeError
  deriving DecidableEq, Repr

/-- The failures a pipeline call can surface: the `AssertionError` from the
date precondition in `get_results`, dryscrape's `WaitTimeoutError` re-raised on
poll timeout, and `BusliniensucheParsingError` raised by `parse_result`. -/
inductive Failure
  | assertionError (msg : String)
  | waitTimeoutError
  | busliniensucheParsingError (detail : ParseFault)
  deriving DecidableEq, Repr

/-- A `Connection` stores all the information about a single bus connection
(the Python `namedtuple`).  Fields hold `Option String` because the stored
values come from lxml `.text` attributes, which are `None` for text-less
elements; the price field is built by the parser itself. -/
structure Connection where
  departure_date : Option String
  departure_time : Option String
  departure_stop : Option String
  trip_duration : Option String
  number_of_stops : Option String
  arrival_date : Option String
  arrival_time : Option String
  arrival_stop : Option String
  price : Option String
  company : Option String
  deriving DecidableEq, Repr

/-- One raw result fragment (a `div.search-result` subtree), abstracted to the
ten fixed-position sub-node lookups `parse_result` performs on it.  Each field
is `none` when the corresponding `xpath(...)[0]` lookup raises (node absent),
and `some t` when the node is present with `.text = t` (itself optional). -/
structure Fragment where
  departure_date : Option (Option String)
  departure_time : Option (Option String)
  departure_stop : Option (Option String)
  trip_duration : Option (Option String)
  number_of_stops : Option (Option String)
  arrival_date : Option (Option String)
  arrival_time : Option (Option String)
  arrival_stop : Option (Option String)
  price : Option (Option String)
  company : Option (Option String)
  deriving DecidableEq, Repr

/-- What one polling probe of `results_are_ready` observes on the page:
either `cssselect('div.search-result')` returns no element, or it returns a
first element whose `.text` is the given optional string. -/
inductive ProbeState
  | noResults
  | resultText (text : Option String)
  deriving DecidableEq, Repr

/-- A fixed page fixture: the probe state observed at the k-th poll, and the
result fragments enumerated once the wait succeeds. -/
structure Fixture where
  probes : Nat → ProbeState
  fragments : List Fragment

/-- Lexicographic byte/codepoint comparison of strings, as Python's `>=` on
the (ASCII) ISO date strings compared in `get_results`. -/
def strDataLe : List Char → List Char → Bool
  | [], _ => true
  | _ :: _, [] => false
  | a :: xs, b :: ys => if a = b then strDataLe xs ys else decide (a < b)

/-- `pyStrLe a b` models the Python string comparison `a <= b`. -/
def pyStrLe (a b : String) : Bool :=
  strDataLe a.data b.data

/-- `startsWith pat l` : `pat` occurs at the head of `l`. -/
def startsWith : List Char → List Char → Bool
  | [], _ => true
  | _ :: _, [] => false
  | p :: ps, c :: cs => p = c && startsWith ps cs

/-- `containsSeq pat l` : `pat` occurs contiguously somewhere in `l`; models
`re.search` with the literal (meta-character-free) pattern used here. -/
def containsSeq (pat : List Char) : List Char → Bool
  | [] => startsWith pat []
  | c :: cs => startsWith pat (c :: cs) || containsSeq pat cs

/-- `DELAY_MSG_REGEX = re.compile('Lade Busverbindungen')` — a literal pattern,
so matching is plain substring search. -/
def delayMsg : List Char := "Lade Busverbindungen".data

/-- The body of the `try` block in `results_are_ready`:
`False if DELAY_MSG_REGEX.search(results[0].text) else True`, with the two
exceptions the expression can raise made explicit. -/
def results_are_ready_body (p : ProbeState) : Except PyErr Bool :=
  match p with
  | .noResults => .error .indexError
  | .resultText none => .error .typeError
  | .resultText (some t) => .ok (if containsSeq delayMsg t.data then false else true)

/-- `results_are_ready` (the closure defined inside `get_results`): queries
`div.search-result`, checks the first element's text against the delay
message, and on any exception renders `error.png` and returns `None` (falsy —
modelled as `false`).  Returns the truthiness of its result and the
collaborator calls it made. -/
def results_are_ready (p : ProbeState) : Bool × List Event :=
  match results_are_ready_body p with
  | .ok b => (b, [Event.cssSelect "div.search-result"])
  | .error _ => (false, [Event.cssSelect "div.search-result", Event.render "error.png"])

/-- Modelled from the spec: dryscrape's `WaitMixin.wait_for` (an external
collaborator, not part of this repository's sources) "polls `is_ready()`
repeatedly at `poll_interval` until it returns true or cumulative elapsed time
exceeds `timeout`".  Discretised: `maxPolls` probes (timeout / poll interval);
the k-th probe observes `probes k`; if none is truthy the wait fails with
`WaitTimeoutError`. -/
def wait_for_aux (probes : Nat → ProbeState) : Nat → Nat → Except Failure Unit × List Event
  | _, 0 => (.error .waitTimeoutError, [])
  | k, fuel + 1 =>
    let r := results_are_ready (probes k)
    if r.1 then (.ok (), r.2)
    else
      let rest := wait_for_aux probes (k + 1) fuel
      (rest.1, r.2 ++ rest.2)

/-- `waiter.wait_for(results_are_ready, interval=0.5, timeout=timeout)`. -/
def wait_for (probes : Nat → ProbeState) (maxPolls : Nat) : Except Failure Unit × List Event :=
  wait_for_aux probes 0 maxPolls

/-- `SEARCH_PAGE` module constant. -/
def SEARCH_PAGE : String := "https://www.busliniensuche.de/"

/-- `DEBUG` module-level global (line 22 of main.py). -/
def DEBUG : Bool := false

/-- `create_browser_session(url=SEARCH_PAGE, load_images=False)`: the
collaborator calls it performs (`dryscrape.Session()`, the attribute set, and
the visit to the search page). -/
def create_browser_session : List Event :=
  [Event.newSession, Event.setAttribute "auto_load_images" false, Event.visit SEARCH_PAGE]

/-- `get_results(session, departure_stop, arrival_stop, date, timeout)`.
Fills `#From` and `#To`, locates `#When`, then asserts
`date >= current_date` (today's ISO date) — raising `AssertionError` *after*
those form interactions when the date is in the past — then sets the date,
clicks `.btn-warning`, waits, and on success enumerates `div.search-result`.
On `WaitTimeoutError` it renders `error.png` and re-raises. -/
def get_results (fix : Fixture) (departure_stop arrival_stop date today : String)
    (maxPolls : Nat) : Except Failure (List Fragment) × List Event :=
  let preEv := [Event.atCss "#From", Event.setField "#From" departure_stop,
                Event.atCss "#To", Event.setField "#To" arrival_stop,
                Event.atCss "#When"]
  if pyStrLe today date then
    let submitEv := preEv ++ [Event.setField "#When" date,
                              Event.atCss ".btn-warning", Event.click ".btn-warning"]
    match wait_for fix.probes maxPolls with
    | (.ok _, wev) =>
        (.ok fix.fragments, submitEv ++ wev ++ [Event.cssSelect "div.search-result"])
    | (.error _, wev) =>
        (.error .waitTimeoutError, submitEv ++ wev ++ [Event.render "error.png"])
  else
    (.error (.assertionError "Can't search for bus connections in the past"), preEv)

/-- `l.all Char.isDigit`: the token is made of ASCII digits only. -/
def allDigits (l : List Char) : Bool := l.all Char.isDigit

/-- Numeric value of a digit string. -/
def natOfDigits (l : List Char) : Nat :=
  l.foldl (fun n c => n * 10 + (c.toNat - 48)) 0

/-- Value in hundredths (cents) of a decimal literal, modelling
`float(s)` followed by `"{0:.2f}".format(...)` read back as an exact number of
hundredths.  The model's domain is unsigned plain decimal literals
(`digits ['.' digits]`) with at most 12 integral and at most 2 fractional
digits: on that domain the binary double nearest to the literal's value
round-trips exactly through 2-decimal formatting, so the composite is exact
decimal arithmetic.  Literals outside this shape (signs, exponents, longer
fractions, huge magnitudes) are outside the model and mapped to `none`. -/
def pyDecimalCents (l : List Char) : Option Nat :=
  match l.dropWhile (fun c => c ≠ '.') with
  | [] =>
    if l ≠ [] ∧ allDigits l = true ∧ l.length ≤ 12 then
      some (natOfDigits l * 100)
    else none
  | _ :: f =>
    let i := l.takeWhile (fun c => c ≠ '.')
    if (i ≠ [] ∨ f ≠ []) ∧ allDigits i = true ∧ allDigits f = true ∧
        i.length ≤ 12 ∧ f.length ≤ 2 then
      some (natOfDigits i * 100 + natOfDigits f * 10 ^ (2 - f.length))
    else none

/-- `COMMA_REGEX.sub('.', ...)` on a single character. -/
def commaSub (c : Char) : Char := if c = ',' then '.' else c

/-- `s.split()[0]` : Python splits on whitespace runs, dropping empty pieces;
the first token is the first maximal non-whitespace run, absent when the
string is empty or all whitespace. -/
def firstToken (l : List Char) : Option (List Char) :=
  let l' := l.dropWhile Char.isWhitespace
  if l' = [] then none else some (l'.takeWhile (fun c => !c.isWhitespace))

/-- Two-digit zero-padded rendering of `n < 100`. -/
def pad2 (n : Nat) : String :=
  if n < 10 then "0" ++ toString n else toString n

/-- `"{0:.2f}".format(x)` for `x` given exactly as `cents` hundredths. -/
def formatCents (cents : Nat) : String :=
  toString (cents / 100) ++ "." ++ pad2 (cents % 100)

/-- One `xpath(...)[0].text` lookup: node absent raises (`IndexError`, caught
as a parse fault naming the field), node present yields its optional text. -/
def reqNode (name : String) (lookup : Option (Option String)) :
    Except ParseFault (Option String) :=
  match lookup with
  | none => .error (.missingField name)
  | some t => .ok t

/-- The price node's `.text` must be a string (`.split()` on `None` raises
`AttributeError`). -/
def getPriceText (t : Option String) : Except ParseFault String :=
  match t with
  | none => .error .priceTextNone
  | some s => .ok s

/-- `.split()[0]` on the price text (`IndexError` when no token exists). -/
def getFirstToken (s : String) : Except ParseFault (List Char) :=
  match firstToken s.data with
  | none => .error .priceTextEmpty
  | some tok => .ok tok

/-- `float(COMMA_REGEX.sub('.', price_str))`, as exact cents. -/
def parsePriceCents (tok : List Char) : Except ParseFault Nat :=
  match pyDecimalCents (tok.map commaSub) with
  | none => .error (.badPrice (String.mk tok))
  | some c => .ok c

/-- The `try` block of `parse_result`: the ten fixed-position sub-node
lookups, the price pipeline (`u"{0:.2f} €".format(float(...))`), and the
`Connection` construction.  Any lookup/parse fault aborts with the fault
detail of the first failing step, in source order (price before company). -/
def parse_result_core (frag : Fragment) : Except ParseFault Connection := do
  let dd ← reqNode "departure_date" frag.departure_date
  let dt ← reqNode "departure_time" frag.departure_time
  let ds ← reqNode "departure_stop" frag.departure_stop
  let td ← reqNode "trip_duration" frag.trip_duration
  let ns ← reqNode "number_of_stops" frag.number_of_stops
  let ad ← reqNode "arrival_date" frag.arrival_date
  let at2 ← reqNode "arrival_time" frag.arrival_time
  let as2 ← reqNode "arrival_stop" frag.arrival_stop
  let pn ← reqNode "price" frag.price
  let ptext ← getPriceText pn
  let tok ← getFirstToken ptext
  let cents ← parsePriceCents tok
  let comp ← reqNode "company" frag.company
  pure { departure_date := dd, departure_time := dt, departure_stop := ds,
         trip_duration := td, number_of_stops := ns, arrival_date := ad,
         arrival_time := at2, arrival_stop := as2,
         price := some (formatCents cents ++ " €"), company := comp }

/-- `parse_result(session, result)`: on a fault it renders `error.png`, dumps
`error.htm`, and then either drops into the interactive debugger and falls off
the end returning `None` (when the module-global `DEBUG` is true) or raises
`BusliniensucheParsingError` carrying the fault detail. -/
def parse_result (dbg : Bool) (frag : Fragment) :
    Except Failure (Option Connection) × List Event :=
  match parse_result_core frag with
  | .ok c => (.ok (some c), [])
  | .error fault =>
    let ev := [Event.render "error.png", Event.writeFile "error.htm"]
    if dbg then (.ok none, ev)
    else (.error (.busliniensucheParsingError fault), ev)

/-- The `for result in results: connections.append(parse_result(...))` loop of
`find_bus_connections`: sequential, aborting the whole call at the first
raised `BusliniensucheParsingError`. -/
def parse_results_loop (dbg : Bool) :
    List Fragment → Except Failure (List (Option Connection)) × List Event
  | [] => (.ok [], [])
  | f :: fs =>
    match parse_result dbg f with
    | (.error e, ev) => (.error e, ev)
    | (.ok c, ev) =>
      match parse_results_loop dbg fs with
      | (.error e, evs) => (.error e, ev ++ evs)
      | (.ok cs, evs) => (.ok (c :: cs), ev ++ evs)

/-- `find_bus_connections(departure_stop, arrival_stop, date, timeout)`:
creates a browser session (visiting the search page), runs the search via
`get_results`, and parses every fragment in DOM encounter order.  The debug
flag seen by `parse_result` is the module-level global `DEBUG`. -/
def find_bus_connections (fix : Fixture) (departure_stop arrival_stop date today : String)
    (maxPolls : Nat) : Except Failure (List (Option Connection)) × List Event :=
  let sev := create_browser_session
  match get_results fix departure_stop arrival_stop date today maxPolls with
  | (.error e, gev) => (.error e, sev ++ gev)
  | (.ok frags, gev) =>
    match parse_results_loop DEBUG frags with
    | (.error e, pev) => (.error e, sev ++ gev ++ pev)
    | (.ok conns, pev) => (.ok conns, sev ++ gev ++ pev)

/-- `run_cli()` restricted to the pipeline invocation the claims are about.
The statement `DEBUG = True` inside `run_cli` has no `global DEBUG`
declaration, so under Python scoping it binds a *function-local* name and
leaves the module-level `DEBUG` — the one `parse_result` reads — untouched;
the local is modelled and then unused, exactly as in the source.  Table
rendering and printing of the returned connections are presentation glue
outside this model. -/
def run_cli (fix : Fixture) (argsDebug : Bool) (origin destination date today : String)
    (timeout : Nat) : Except Failure (List (Option Connection)) × List Event :=
  let _localDEBUG : Bool := if argsDebug then true else DEBUG
  find_bus_connections fix origin destination date today timeout

/-! Concrete fixtures and fragments used by witnesses and counterexamples. -/

/-- A well-formed fragment (one complete search result). -/
def goodFrag : Fragment :=
  { departure_date := some (some "26.11."), departure_time := some (some "08:00"),
    departure_stop := some (some "Berlin ZOB"), trip_duration := some (some "3:30h"),
    number_of_stops := some (some "0 Umstiege"), arrival_date := some (some "26.11."),
    arrival_time := some (some "11:30"), arrival_stop := some (some "Hamburg ZOB"),
    price := some (some "19,99 €"), company := some (some "FlixBus") }

/-- The `Connection` that `goodFrag` parses to. -/
def goodConn : Connection :=
  { departure_date := some "26.11.", departure_time := some "08:00",
    departure_stop := some "Berlin ZOB", trip_duration := some "3:30h",
    number_of_stops := some "0 Umstiege", arrival_date := some "26.11.",
    arrival_time := some "11:30", arrival_stop := some "Hamburg ZOB",
    price := some "19.99 €", company := some "FlixBus" }

/-- A malformed fragment: its price sub-node is absent. -/
def badFrag : Fragment :=
  { goodFrag with price := none }

/-- A fragment whose sub-nodes are all present but whose departure-date node
has no text (`.text` is `None`). -/
def noneTextFrag : Fragment :=
  { goodFrag with departure_date := some none }

/-- A fragment whose price text is the comma-decimal string `"12,5"`. -/
def frag12 : Fragment :=
  { goodFrag with price := some (some "12,5") }

/-- A fixture whose page is always ready and carries one good fragment. -/
def fixOk : Fixture :=
  { probes := fun _ => .resultText (some "2 Ergebnisse"), fragments := [goodFrag] }

/-- A fixture with an empty page (first probe finds no results container). -/
def fix0 : Fixture :=
  { probes := fun _ => .noResults, fragments := [] }

/-- A fixture whose first probe finds no results container, and which is ready
from the second probe on. -/
def fixDelay : Fixture :=
  { probes := fun k => if k = 0 then .noResults else .resultText (some "2 Ergebnisse"),
    fragments := [goodFrag] }

/-- A fixture that forever shows the loading placeholder. -/
def fixLoading : Fixture :=
  { probes := fun _ => .resultText (some "Lade Busverbindungen ..."),
    fragments := [goodFrag] }

/-- A ready fixture holding one good and one malformed fragment. -/
def fixBad : Fixture :=
  { probes := fun _ => .resultText (some "2 Ergebnisse"),
    fragments := [goodFrag, badFrag] }

/-- The `Connection` that `noneTextFrag` parses to: note the `none` field. -/
def noneTextConn : Connection :=
  { goodConn with departure_date := none }

/-- The `Connection` that `frag12` parses to. -/
def conn12 : Connection :=
  { goodConn with price := some "12.50 €" }

end Fernbus

namespace Fernbus

/-! ### Helper lemmas -/

theorem exceptBind_ok {ε α β : Type} {x : Except ε α} {f : α → Except ε β} {b : β}
    (h : (x >>= f) = .ok b) : ∃ a, x = .ok a ∧ f a = .ok b := by
  cases x with
  | error e => simp [Bind.bind, Except.bind] at h
  | ok a => exact ⟨a, rfl, by simpa [Bind.bind, Except.bind] using h⟩

theorem except_pure_ok {ε α : Type} {a b : α} (h : (pure a : Except ε α) = .ok b) : a = b := by
  simpa [pure, Except.pure] using h

theorem reqNode_ok {n : String} {o : Option (Option String)} {t : Option String}
    (h : reqNode n o = .ok t) : o = some t := by
  cases o with
  | none => simp [reqNode] at h
  | some x => simp [reqNode] at h; subst h; rfl

theorem getPriceText_ok {t : Option String} {s : String}
    (h : getPriceText t = .ok s) : t = some s := by
  cases t with
  | none => simp [getPriceText] at h
  | some x => simp [getPriceText] at h; subst h; rfl

theorem getFirstToken_ok {s : String} {tok : List Char}
    (h : getFirstToken s = .ok tok) : firstToken s.data = some tok := by
  unfold getFirstToken at h
  cases hm : firstToken s.data with
  | none => rw [hm] at h; simp at h
  | some y => rw [hm] at h; simp at h; rw [h]

theorem parsePriceCents_ok {tok : List Char} {cents : Nat}
    (h : parsePriceCents tok = .ok cents) :
    pyDecimalCents (tok.map commaSub) = some cents := by
  unfold parsePriceCents at h
  cases hm : pyDecimalCents (tok.map commaSub) with
  | none => rw [hm] at h; simp at h
  | some y => rw [hm] at h; simp at h; rw [h]

theorem core_ok_inv {frag : Fragment} {c : Connection}
    (hok : parse_result_core frag = .ok c) :
    ∃ ptext tok cents,
      frag.departure_date.isSome = true ∧ frag.departure_time.isSome = true ∧
      frag.departure_stop.isSome = true ∧ frag.trip_duration.isSome = true ∧
      frag.number_of_stops.isSome = true ∧ frag.arrival_date.isSome = true ∧
      frag.arrival_time.isSome = true ∧ frag.arrival_stop.isSome = true ∧
      frag.company.isSome = true ∧
      frag.price = some (some ptext) ∧
      firstToken ptext.data = some tok ∧
      pyDecimalCents (tok.map commaSub) = some cents ∧
      c.price = some (formatCents cents ++ " €") := by
  simp only [parse_result_core] at hok
  obtain ⟨dd, hdd, hok⟩ := exceptBind_ok hok
  obtain ⟨dt, hdt, hok⟩ := exceptBind_ok hok
  obtain ⟨ds, hds, hok⟩ := exceptBind_ok hok
  obtain ⟨td, htd, hok⟩ := exceptBind_ok hok
  obtain ⟨ns, hns, hok⟩ := exceptBind_ok hok
  obtain ⟨ad, had, hok⟩ := exceptBind_ok hok
  obtain ⟨at2, hat, hok⟩ := exceptBind_ok hok
  obtain ⟨as2, has, hok⟩ := exceptBind_ok hok
  obtain ⟨pn, hpn, hok⟩ := exceptBind_ok hok
  obtain ⟨ptext, hpt, hok⟩ := exceptBind_ok hok
  obtain ⟨tok, htok, hok⟩ := exceptBind_ok hok
  obtain ⟨cents, hcents, hok⟩ := exceptBind_ok hok
  obtain ⟨comp, hcomp, hok⟩ := exceptBind_ok hok
  have hc := except_pure_ok hok
  subst hc
  refine ⟨ptext, tok, cents, ?_, ?_, ?_, ?_, ?_, ?_, ?_, ?_, ?_, ?_, ?_, ?_, rfl⟩
  · rw [reqNode_ok hdd]; rfl
  · rw [reqNode_ok hdt]; rfl
  · rw [reqNode_ok hds]; rfl
  · rw [reqNode_ok htd]; rfl
  · rw [reqNode_ok hns]; rfl
  · rw [reqNode_ok had]; rfl
  · rw [reqNode_ok hat]; rfl
  · rw [reqNode_ok has]; rfl
  · rw [reqNode_ok hcomp]; rfl
  · rw [reqNode_ok hpn, getPriceText_ok hpt]
  · exact getFirstToken_ok htok
  · exact parsePriceCents_ok hcents

end Fernbus

namespace Fernbus

theorem digit_not_ws {x : Char} (h : x.isDigit = true) : x.isWhitespace = false := by
  cases hws : x.isWhitespace with
  | false => rfl
  | true =>
    simp only [Char.isWhitespace, Bool.or_eq_true, decide_eq_true_eq] at hws
    obtain ((rfl | rfl) | rfl) | rfl := hws <;> exact absurd h (by decide)

theorem digit_ne_dot {x : Char} (h : x.isDigit = true) : x ≠ '.' := by
  rintro rfl; exact absurd h (by decide)

theorem commaSub_digit {x : Char} (h : x.isDigit = true) : commaSub x = x := by
  unfold commaSub
  split
  · rename_i he; subst he; exact absurd h (by decide)
  · rfl

theorem comma_not_ws : (',').isWhitespace = false := by decide

theorem dropWhile_all_false {p : Char → Bool} :
    ∀ {l : List Char}, (∀ x ∈ l, p x = false) → l.dropWhile p = l := by
  intro l h
  cases l with
  | nil => rfl
  | cons a l' =>
    have ha : p a = false := h a (List.mem_cons_self _ _)
    simp [List.dropWhile, ha]

theorem takeWhile_all_true {p : Char → Bool} :
    ∀ {l : List Char}, (∀ x ∈ l, p x = true) → l.takeWhile p = l := by
  intro l
  induction l with
  | nil => intro _; rfl
  | cons a l' ih =>
    intro h
    have ha : p a = true := h a (List.mem_cons_self _ _)
    have htail := ih fun x hx => h x (List.mem_cons_of_mem _ hx)
    simp [List.takeWhile, ha, htail]

theorem takeWhile_append_stop {p : Char → Bool} {c : Char} (hc : p c = false) :
    ∀ {l r : List Char}, (∀ x ∈ l, p x = true) →
      (l ++ c :: r).takeWhile p = l ∧ (l ++ c :: r).dropWhile p = c :: r := by
  intro l
  induction l with
  | nil => intro r _; simp [List.takeWhile, List.dropWhile, hc]
  | cons a l' ih =>
    intro r h
    have ha : p a = true := h a (List.mem_cons_self _ _)
    have := ih (r := r) fun x hx => h x (List.mem_cons_of_mem _ hx)
    simp [List.takeWhile, List.dropWhile, ha, this.1, this.2]

theorem allDigits_of {l : List Char} (h : ∀ x ∈ l, x.isDigit = true) :
    allDigits l = true := by
  simpa [allDigits, List.all_eq_true] using h

theorem map_commaSub_digits {l : List Char} (h : ∀ x ∈ l, x.isDigit = true) :
    l.map commaSub = l := by
  induction l with
  | nil => rfl
  | cons x xs ih =>
    rw [List.map_cons, commaSub_digit (h x (List.mem_cons_self _ _)),
      ih fun y hy => h y (List.mem_cons_of_mem _ hy)]

/-- `firstToken` of a nonempty whitespace-free character list is the list
itself. -/
theorem firstToken_of_nonws {l : List Char} (hne : l ≠ [])
    (h : ∀ x ∈ l, x.isWhitespace = false) : firstToken l = some l := by
  unfold firstToken
  rw [dropWhile_all_false h, if_neg hne]
  congr 1
  exact takeWhile_all_true fun x hx => by simp [h x hx]

end Fernbus

namespace Fernbus

/-! ### Claim C7 -/

/-- C7 counterexample: the claim "either every one of the ten fields of the
resulting Connection is populated, or the construction fails entirely — no
Connection with a missing/empty field is ever returned by parse_result" is
false on the code: a fragment whose sub-nodes are all present but whose
departure-date node carries no text (`.text` is `None`) parses successfully
into a `Connection` whose `departure_date` field is unpopulated (`None`). -/
theorem c7_counterexample :
    parse_result_core noneTextFrag = .ok noneTextConn ∧
    noneTextConn.departure_date = none ∧
    parse_result DEBUG noneTextFrag = (.ok (some noneTextConn), []) :=
  ⟨rfl, rfl, rfl⟩

/-- C7 (amended): record construction is all-or-nothing with respect to
sub-node *presence* and price parsing — whenever `parse_result_core`
returns a `Connection`, every one of the ten sub-node lookups succeeded, and
the constructed price field is always populated.  (A present sub-node whose
text is `None` still passes through, so non-price fields may be
unpopulated; that is the part of the original claim the counterexample
refutes.) -/
theorem c7_all_nodes_present_and_price_populated {frag : Fragment} {c : Connection}
    (hok : parse_result_core frag = .ok c) :
    frag.departure_date.isSome = true ∧ frag.departure_time.isSome = true ∧
    frag.departure_stop.isSome = true ∧ frag.trip_duration.isSome = true ∧
    frag.number_of_stops.isSome = true ∧ frag.arrival_date.isSome = true ∧
    frag.arrival_time.isSome = true ∧ frag.arrival_stop.isSome = true ∧
    frag.price.isSome = true ∧ frag.company.isSome = true ∧
    c.price.isSome = true := by
  obtain ⟨ptext, tok, cents, h1, h2, h3, h4, h5, h6, h7, h8, h9, h10, _, _, h13⟩ :=
    core_ok_inv hok
  exact ⟨h1, h2, h3, h4, h5, h6, h7, h8, by rw [h10]; rfl, h9, by rw [h13]; rfl⟩

/-- C7 witness: the amended theorem applied to a concrete well-formed
fragment. -/
theorem c7_witness :
    parse_result_core goodFrag = .ok goodConn ∧
    (goodFrag.departure_date.isSome = true ∧ goodFrag.departure_time.isSome = true ∧
     goodFrag.departure_stop.isSome = true ∧ goodFrag.trip_duration.isSome = true ∧
     goodFrag.number_of_stops.isSome = true ∧ goodFrag.arrival_date.isSome = true ∧
     goodFrag.arrival_time.isSome = true ∧ goodFrag.arrival_stop.isSome = true ∧
     goodFrag.price.isSome = true ∧ goodFrag.company.isSome = true ∧
     goodConn.price.isSome = true) :=
  ⟨rfl, c7_all_nodes_present_and_price_populated rfl⟩

/-! ### Claim C3 -/

/-- C3: for a fragment whose price text is a comma-decimal number string
(digit string, comma, one or two fractional digits — `float` conversion and
2-decimal formatting are exact on this shape), the price field of the parsed
`Connection` is that number with the comma replaced by a period, reformatted
to exactly two digits after the period and suffixed with " €". -/
theorem c3_price_normalization {frag : Fragment} {c : Connection} {a b : List Char}
    (ha : a ≠ []) (haD : ∀ x ∈ a, x.isDigit = true) (haL : a.length ≤ 12)
    (hbD : ∀ x ∈ b, x.isDigit = true) ( _hb1 : 1 ≤ b.length) (hb2 : b.length ≤ 2)
    (hp : frag.price = some (some (String.mk (a ++ ',' :: b))))
    (hok : parse_result_core frag = .ok c) :
    c.price =
      some (formatCents (natOfDigits a * 100 + natOfDigits b * 10 ^ (2 - b.length)) ++ " €") := by
  obtain ⟨ptext, tok, cents, _, _, _, _, _, _, _, _, _, hpf, htok, hcents, hcp⟩ :=
    core_ok_inv hok
  rw [hp] at hpf
  have hpt : ptext = String.mk (a ++ ',' :: b) := by
    injection hpf with hpf'; injection hpf' with hpf''; exact hpf''.symm
  subst hpt
  have hdata : (String.mk (a ++ ',' :: b)).data = a ++ ',' :: b := rfl
  rw [hdata] at htok
  -- the price text holds no whitespace, so the first token is the whole text
  have hnws : ∀ x ∈ a ++ ',' :: b, x.isWhitespace = false := by
    intro x hx
    rcases List.mem_append.mp hx with hxa | hxc
    · exact digit_not_ws (haD x hxa)
    · rcases List.mem_cons.mp hxc with rfl | hxb
      · exact comma_not_ws
      · exact digit_not_ws (hbD x hxb)
  have hne : a ++ ',' :: b ≠ [] := by
    intro hcon
    exact absurd (List.append_eq_nil.mp hcon).2 (by simp)
  rw [firstToken_of_nonws hne hnws] at htok
  have htok' : tok = a ++ ',' :: b := by injection htok with h'; exact h'.symm
  subst htok'
  -- comma substitution turns the token into the dot-decimal literal
  have hmap : (a ++ ',' :: b).map commaSub = a ++ '.' :: b := by
    rw [List.map_append, List.map_cons, map_commaSub_digits haD, map_commaSub_digits hbD]
    rfl
  rw [hmap] at hcents
  -- evaluate the decimal-cents parser on `a ++ '.' :: b`
  have hsplit := takeWhile_append_stop (p := fun c => decide (c ≠ '.')) (c := '.')
    (by simp) (l := a) (r := b) (fun x hx => by simp [digit_ne_dot (haD x hx)])
  have hcents' :
      pyDecimalCents (a ++ '.' :: b) =
        some (natOfDigits a * 100 + natOfDigits b * 10 ^ (2 - b.length)) := by
    unfold pyDecimalCents
    rw [hsplit.2]
    simp only [hsplit.1]
    rw [if_pos]
    exact ⟨Or.inl ha, allDigits_of haD, allDigits_of hbD, haL, hb2⟩
  rw [hcents'] at hcents
  have : cents = natOfDigits a * 100 + natOfDigits b * 10 ^ (2 - b.length) := by
    injection hcents with h'; exact h'.symm
  rw [hcp, this]

/-- C3 witness: a fragment with price text "12,5" parses to a connection
priced "12.50 €". -/
theorem c3_witness :
    frag12.price = some (some (String.mk (['1', '2'] ++ ',' :: ['5']))) ∧
    parse_result_core frag12 = .ok conn12 ∧
    conn12.price =
      some (formatCents (natOfDigits ['1', '2'] * 100 + natOfDigits ['5'] * 10 ^ (2 - 1)) ++ " €") ∧
    conn12.price = some "12.50 €" :=
  ⟨rfl, rfl,
   @c3_price_normalization frag12 conn12 ['1', '2'] ['5']
     (by decide) (by decide) (by decide) (by decide) (by decide) (by decide) rfl rfl,
   rfl⟩

end Fernbus

namespace Fernbus

/-! ### Claim C6 -/

/-- C6: the ready predicate returns true iff the results container is present
and its text does not display the loading placeholder; whenever the container
cannot be located or its text cannot be read, the body's exception is
swallowed and the predicate evaluates to "not ready" instead of propagating. -/
theorem c6_ready_iff :
    (∀ p : ProbeState, (results_are_ready p).1 = true ↔
      ∃ t, p = .resultText (some t) ∧ containsSeq delayMsg t.data = false) ∧
    (∀ p e, results_are_ready_body p = .error e → (results_are_ready p).1 = false) := by
  constructor
  · intro p
    cases p with
    | noResults => simp [results_are_ready, results_are_ready_body]
    | resultText t =>
      cases t with
      | none => simp [results_are_ready, results_are_ready_body]
      | some s =>
        cases hc : containsSeq delayMsg s.data <;>
          simp [results_are_ready, results_are_ready_body, hc]
  · intro p e h
    unfold results_are_ready
    rw [h]

/-- C6 witness: the iff applied at a ready page and the error-swallowing part
applied at a container-less page. -/
theorem c6_witness :
    (results_are_ready (.resultText (some "2 Ergebnisse"))).1 = true ∧
    results_are_ready_body .noResults = .error .indexError ∧
    (results_are_ready .noResults).1 = false :=
  ⟨(c6_ready_iff.1 _).mpr ⟨"2 Ergebnisse", rfl, rfl⟩, rfl,
   c6_ready_iff.2 .noResults .indexError rfl⟩

/-! ### Claim C9 -/

/-- C9: on every probe in which the results container is absent or its text
cannot be read, `results_are_ready` renders the page to the fixed-path
snapshot `error.png`; consequently the snapshot is written even during calls
that ultimately succeed — witnessed by a fixture whose first probe finds no
container and whose call then returns results, with the render call in its
trace. -/
theorem c9_snapshot_during_polling :
    (∀ p : ProbeState, (p = .noResults ∨ p = .resultText none) →
      (results_are_ready p).2 =
        [Event.cssSelect "div.search-result", Event.render "error.png"]) ∧
    (find_bus_connections fixDelay "Berlin" "Hamburg" "2026-12-01" "2026-10-12" 3).1 =
      .ok [some goodConn] ∧
    Event.render "error.png" ∈
      (find_bus_connections fixDelay "Berlin" "Hamburg" "2026-12-01" "2026-10-12" 3).2 := by
  refine ⟨?_, rfl, by decide⟩
  rintro p (rfl | rfl) <;> rfl

/-- C9 witness: the universal part applied at a concrete container-less
probe. -/
theorem c9_witness :
    (ProbeState.noResults = ProbeState.noResults ∨
      ProbeState.noResults = ProbeState.resultText none) ∧
    (results_are_ready ProbeState.noResults).2 =
      [Event.cssSelect "div.search-result", Event.render "error.png"] :=
  ⟨Or.inl rfl, c9_snapshot_during_polling.1 ProbeState.noResults (Or.inl rfl)⟩

/-! ### Claim C5 -/

theorem wait_aux_never_ready {probes : Nat → ProbeState}
    (h : ∀ j, (results_are_ready (probes j)).1 = false) :
    ∀ fuel k, (wait_for_aux probes k fuel).1 = .error .waitTimeoutError := by
  intro fuel
  induction fuel with
  | zero => intro k; rfl
  | succ n ih =>
    intro k
    simp only [wait_for_aux, h k, if_false]
    exact ih (k + 1)

/-- C5: if the ready predicate is never truthy at any probe, the pipeline call
fails with `WaitTimeoutError` — a failure distinct from
`BusliniensucheParsingError` — and the diagnostic page snapshot `error.png` is
rendered as the last collaborator call before the failure propagates. -/
theorem c5_timeout_failure_with_snapshot (fix : Fixture) (o d date today : String) (mp : Nat)
    (hd : pyStrLe today date = true)
    (h : ∀ j, (results_are_ready (fix.probes j)).1 = false) :
    (find_bus_connections fix o d date today mp).1 = .error .waitTimeoutError ∧
    (∃ evs, (find_bus_connections fix o d date today mp).2 =
      evs ++ [Event.render "error.png"]) ∧
    ∀ fault, Failure.waitTimeoutError ≠ Failure.busliniensucheParsingError fault := by
  rcases hwf : wait_for fix.probes mp with ⟨w1, wev⟩
  have hw1 : w1 = .error .waitTimeoutError := by
    have := wait_aux_never_ready h mp 0
    rw [show wait_for_aux fix.probes 0 mp = wait_for fix.probes mp from rfl, hwf] at this
    exact this
  subst hw1
  refine ⟨?_, ?_, fun fault => by simp⟩
  · simp [find_bus_connections, get_results, hd, hwf]
  · refine ⟨create_browser_session ++
      ([Event.atCss "#From", Event.setField "#From" o, Event.atCss "#To",
        Event.setField "#To" d, Event.atCss "#When"] ++
       [Event.setField "#When" date, Event.atCss ".btn-warning", Event.click ".btn-warning"] ++
       wev), ?_⟩
    simp [find_bus_connections, get_results, hd, hwf]

/-- C5 witness: a fixture that forever displays the loading placeholder times
out with the snapshot rendered last. -/
theorem c5_witness :
    pyStrLe "2026-10-12" "2026-12-01" = true ∧
    (∀ j, (results_are_ready (fixLoading.probes j)).1 = false) ∧
    ((find_bus_connections fixLoading "Berlin" "Hamburg" "2026-12-01" "2026-10-12" 2).1 =
        .error .waitTimeoutError ∧
      (∃ evs, (find_bus_connections fixLoading "Berlin" "Hamburg" "2026-12-01" "2026-10-12" 2).2 =
        evs ++ [Event.render "error.png"]) ∧
      ∀ fault, Failure.waitTimeoutError ≠ Failure.busliniensucheParsingError fault) :=
  ⟨rfl, fun _ => rfl,
   c5_timeout_failure_with_snapshot fixLoading "Berlin" "Hamburg" "2026-12-01" "2026-10-12" 2
     rfl fun _ => rfl⟩

/-! ### Claim C1 -/

/-- C1 counterexample: for the past date "2020-01-01" (today being
"2026-10-12"), the pipeline does fail — but with a collaborator-call count of
eight, not zero: the browser session is created, the search page visited, and
the origin and destination fields are set before the date assertion fires. -/
theorem c1_counterexample :
    find_bus_connections fix0 "Berlin" "Hamburg" "2020-01-01" "2026-10-12" 5 =
      (.error (.assertionError "Can't search for bus connections in the past"),
       [Event.newSession, Event.setAttribute "auto_load_images" false,
        Event.visit SEARCH_PAGE, Event.atCss "#From", Event.setField "#From" "Berlin",
        Event.atCss "#To", Event.setField "#To" "Hamburg", Event.atCss "#When"]) ∧
    Event.newSession ∈
      (find_bus_connections fix0 "Berlin" "Hamburg" "2020-01-01" "2026-10-12" 5).2 ∧
    (find_bus_connections fix0 "Berlin" "Hamburg" "2020-01-01" "2026-10-12" 5).2.length = 8 :=
  ⟨rfl, by decide, rfl⟩

/-- C1 (amended): for every date string strictly less than today's, the
pipeline fails with the `AssertionError` "Can't search for bus connections in
the past" before the date field is set, the search is submitted, or any
polling occurs — but only after the browser session has been acquired, the
search page visited, the origin and destination fields set, and the date
field located. -/
theorem c1_fails_after_session_and_form (fix : Fixture) (o d date today : String) (mp : Nat)
    (h : pyStrLe today date = false) :
    find_bus_connections fix o d date today mp =
      (.error (.assertionError "Can't search for bus connections in the past"),
       [Event.newSession, Event.setAttribute "auto_load_images" false,
        Event.visit SEARCH_PAGE, Event.atCss "#From", Event.setField "#From" o,
        Event.atCss "#To", Event.setField "#To" d, Event.atCss "#When"]) := by
  simp [find_bus_connections, get_results, h, create_browser_session]

/-- C1 witness: the amended theorem applied at a concrete past date. -/
theorem c1_witness :
    pyStrLe "2026-10-12" "2020-01-01" = false ∧
    find_bus_connections fix0 "A" "B" "2020-01-01" "2026-10-12" 1 =
      (.error (.assertionError "Can't search for bus connections in the past"),
       [Event.newSession, Event.setAttribute "auto_load_images" false,
        Event.visit SEARCH_PAGE, Event.atCss "#From", Event.setField "#From" "A",
        Event.atCss "#To", Event.setField "#To" "B", Event.atCss "#When"]) :=
  ⟨rfl, c1_fails_after_session_and_form fix0 "A" "B" "2020-01-01" "2026-10-12" 1 rfl⟩

end Fernbus

namespace Fernbus

/-! ### Claim C4 -/

theorem close_not_in_ready (p : ProbeState) :
    Event.closeSession ∉ (results_are_ready p).2 := by
  rcases p with _ | (_ | t) <;> simp [results_are_ready, results_are_ready_body]

theorem close_not_in_wait (probes : Nat → ProbeState) :
    ∀ fuel k, Event.closeSession ∉ (wait_for_aux probes k fuel).2 := by
  intro fuel
  induction fuel with
  | zero => intro k; simp [wait_for_aux]
  | succ n ih =>
    intro k
    simp only [wait_for_aux]
    split
    · exact close_not_in_ready (probes k)
    · intro hmem
      rcases List.mem_append.mp hmem with hmem | hmem
      · exact close_not_in_ready (probes k) hmem
      · exact ih (k + 1) hmem

theorem close_not_in_get (fix : Fixture) (o d date today : String) (mp : Nat) :
    Event.closeSession ∉ (get_results fix o d date today mp).2 := by
  unfold get_results
  split
  · rcases hwf : wait_for fix.probes mp with ⟨w1, wev⟩
    have hwev : Event.closeSession ∉ wev := by
      have := close_not_in_wait fix.probes mp 0
      rw [show wait_for_aux fix.probes 0 mp = wait_for fix.probes mp from rfl, hwf] at this
      exact this
    cases w1 <;> simp [List.mem_append, hwev]
  · simp

theorem close_not_in_parse (dbg : Bool) (f : Fragment) :
    Event.closeSession ∉ (parse_result dbg f).2 := by
  unfold parse_result
  split
  · simp
  · split <;> simp

theorem close_not_in_loop (dbg : Bool) :
    ∀ fs : List Fragment, Event.closeSession ∉ (parse_results_loop dbg fs).2 := by
  intro fs
  induction fs with
  | nil => simp [parse_results_loop]
  | cons g rest ih =>
    simp only [parse_results_loop]
    split
    · rename_i e ev heq
      have := close_not_in_parse dbg g
      rw [heq] at this
      exact this
    · rename_i c ev heq
      have hev : Event.closeSession ∉ ev := by
        have := close_not_in_parse dbg g
        rw [heq] at this
        exact this
      split
      · rename_i e evs heq2
        intro hmem
        rcases List.mem_append.mp hmem with h | h
        · exact hev h
        · rw [heq2] at ih; exact ih h
      · rename_i cs evs heq2
        intro hmem
        rcases List.mem_append.mp hmem with h | h
        · exact hev h
        · rw [heq2] at ih; exact ih h

/-- C4 (amended): no exit path of `find_bus_connections` releases the browser
session — the code contains no close/release call at all, so the trace of
every invocation (success, timeout, assertion or parse failure) contains zero
session-close collaborator calls; the session is simply leaked to interpreter
teardown. -/
theorem c4_session_never_closed (fix : Fixture) (o d date today : String) (mp : Nat) :
    ((find_bus_connections fix o d date today mp).2.count Event.closeSession) = 0 := by
  rw [List.count_eq_zero]
  unfold find_bus_connections
  have hs : Event.closeSession ∉ create_browser_session := by decide
  rcases hg : get_results fix o d date today mp with ⟨g1, gev⟩
  have hgev : Event.closeSession ∉ gev := by
    have := close_not_in_get fix o d date today mp
    rw [hg] at this
    exact this
  cases g1 with
  | error e =>
    simp only
    intro hmem
    rcases List.mem_append.mp hmem with h | h
    · exact hs h
    · exact hgev h
  | ok frags =>
    dsimp only
    rcases hl : parse_results_loop DEBUG frags with ⟨l1, lev⟩
    have hlev : Event.closeSession ∉ lev := by
      have := close_not_in_loop DEBUG frags
      rw [hl] at this
      exact this
    cases l1 <;>
      · simp only
        intro hmem
        rcases List.mem_append.mp hmem with h | h
        · rcases List.mem_append.mp h with h' | h'
          · exact hs h'
          · exact hgev h'
        · exact hlev h

/-- C4 counterexample: a successful pipeline call returns its records with no
session-close call anywhere in its collaborator trace, refuting the claim
that the session is released on every exit path. -/
theorem c4_counterexample :
    (find_bus_connections fixOk "Berlin" "Hamburg" "2026-12-01" "2026-10-12" 1).1 =
      .ok [some goodConn] ∧
    (find_bus_connections fixOk "Berlin" "Hamburg" "2026-12-01" "2026-10-12" 1).2.count
      Event.closeSession = 0 :=
  ⟨rfl, rfl⟩

/-- C4 witness: the amended theorem applied at a concrete invocation. -/
theorem c4_witness :
    ((find_bus_connections fixOk "Berlin" "Hamburg" "2026-12-01" "2026-10-12" 1).2.count
      Event.closeSession) = 0 :=
  c4_session_never_closed fixOk "Berlin" "Hamburg" "2026-12-01" "2026-10-12" 1

end Fernbus

namespace Fernbus

/-! ### Claims C2 and C10: parse-failure propagation -/

theorem loop_error_of_mem :
    ∀ fs : List Fragment,
      (∃ f ∈ fs, ∃ fault, parse_result_core f = .error fault) →
      ∃ fault, (parse_results_loop false fs).1 = .error (.busliniensucheParsingError fault) ∧
        ∃ f ∈ fs, parse_result_core f = .error fault := by
  intro fs
  induction fs with
  | nil => rintro ⟨f, hf, _⟩; simp at hf
  | cons g rest ih =>
    rintro ⟨f, hf, fault, hferr⟩
    cases hg : parse_result_core g with
    | error e =>
      refine ⟨e, ?_, g, List.mem_cons_self _ _, hg⟩
      simp [parse_results_loop, parse_result, hg]
    | ok cg =>
      have hfrest : f ∈ rest := by
        rcases List.mem_cons.mp hf with h1 | h1
        · subst h1; rw [hg] at hferr; exact absurd hferr (by simp)
        · exact h1
      obtain ⟨e, herr, f', hf', herr'⟩ := ih ⟨f, hfrest, fault, hferr⟩
      refine ⟨e, ?_, f', List.mem_cons_of_mem _ hf', herr'⟩
      rcases hl : parse_results_loop false rest with ⟨r1, rev⟩
      rw [hl] at herr
      simp only at herr
      subst herr
      simp [parse_results_loop, parse_result, hg, hl]

/-- Shared engine for C2 and C10: when the date precondition holds, the wait
succeeds, and at least one fragment is malformed, the whole call fails with
`BusliniensucheParsingError` carrying the fault detail of a malformed
fragment. -/
theorem find_parsing_error (fix : Fixture) (o d date today : String) (mp : Nat)
    (hd : pyStrLe today date = true)
    (hw : (wait_for fix.probes mp).1 = .ok ())
    (hm : ∃ f ∈ fix.fragments, ∃ fault, parse_result_core f = .error fault) :
    ∃ fault, (find_bus_connections fix o d date today mp).1 =
        .error (.busliniensucheParsingError fault) ∧
      ∃ f ∈ fix.fragments, parse_result_core f = .error fault := by
  obtain ⟨fault, hloop, f, hf, herr⟩ := loop_error_of_mem fix.fragments hm
  refine ⟨fault, ?_, f, hf, herr⟩
  rcases hwf : wait_for fix.probes mp with ⟨w1, wev⟩
  rw [hwf] at hw
  simp only at hw
  subst hw
  unfold find_bus_connections
  have hget : get_results fix o d date today mp =
      (.ok fix.fragments,
       ([Event.atCss "#From", Event.setField "#From" o, Event.atCss "#To",
         Event.setField "#To" d, Event.atCss "#When"] ++
        [Event.setField "#When" date, Event.atCss ".btn-warning", Event.click ".btn-warning"]) ++
       wev ++ [Event.cssSelect "div.search-result"]) := by
    unfold get_results
    rw [if_pos hd, hwf]
  rw [hget]
  dsimp only
  rcases hl : parse_results_loop DEBUG fix.fragments with ⟨l1, lev⟩
  rw [show DEBUG = false from rfl] at hl
  rw [hl] at hloop
  simp only at hloop
  subst hloop
  rfl

/-- C2: whenever at least one fragment among the result set is malformed (a
missing sub-node or an unparsable price), the whole call fails with
`BusliniensucheParsingError` carrying the original fault detail, and zero
`Connection` records are returned (the result is the error, not a partial
list). -/
theorem c2_parse_failure_aborts_call (fix : Fixture) (o d date today : String) (mp : Nat)
    (hd : pyStrLe today date = true)
    (hw : (wait_for fix.probes mp).1 = .ok ())
    (hm : ∃ f ∈ fix.fragments, ∃ fault, parse_result_core f = .error fault) :
    ∃ fault, (find_bus_connections fix o d date today mp).1 =
        .error (.busliniensucheParsingError fault) ∧
      ∃ f ∈ fix.fragments, parse_result_core f = .error fault :=
  find_parsing_error fix o d date today mp hd hw hm

/-- C2 witness: a two-fragment result set whose second fragment misses its
price sub-node makes the whole call fail with the fault detail, returning no
records. -/
theorem c2_witness :
    pyStrLe "2026-10-12" "2026-12-01" = true ∧
    (wait_for fixBad.probes 1).1 = .ok () ∧
    (∃ f ∈ fixBad.fragments, ∃ fault, parse_result_core f = .error fault) ∧
    ∃ fault, (find_bus_connections fixBad "Berlin" "Hamburg" "2026-12-01" "2026-10-12" 1).1 =
        .error (.busliniensucheParsingError fault) ∧
      ∃ f ∈ fixBad.fragments, parse_result_core f = .error fault :=
  ⟨rfl, rfl, ⟨badFrag, by simp [fixBad], ParseFault.missingField "price", rfl⟩,
   c2_parse_failure_aborts_call fixBad "Berlin" "Hamburg" "2026-12-01" "2026-10-12" 1 rfl rfl
     ⟨badFrag, by simp [fixBad], ParseFault.missingField "price", rfl⟩⟩

/-! ### Claim C10 -/

/-- C10: the interactive-debugger branch of `parse_result` is unreachable
through the command-line entry point: the module-level `DEBUG` flag is false,
and `run_cli`'s `DEBUG = True` binds a function-local name without changing
the module global, so — whatever the `--debug` argument — a parse failure
during a CLI run always raises `BusliniensucheParsingError`. -/
theorem c10_debug_branch_unreachable (fix : Fixture) (argsDebug : Bool)
    (o d date today : String) (mp : Nat)
    (hd : pyStrLe today date = true)
    (hw : (wait_for fix.probes mp).1 = .ok ())
    (hm : ∃ f ∈ fix.fragments, ∃ fault, parse_result_core f = .error fault) :
    DEBUG = false ∧
    ∃ fault, (run_cli fix argsDebug o d date today mp).1 =
      .error (.busliniensucheParsingError fault) := by
  refine ⟨rfl, ?_⟩
  obtain ⟨fault, hres, _⟩ := find_parsing_error fix o d date today mp hd hw hm
  exact ⟨fault, hres⟩

/-- C10 witness: a CLI run with `--debug` set and a malformed fragment still
raises the parsing error (the debugger branch is not taken). -/
theorem c10_witness :
    pyStrLe "2026-10-12" "2026-12-01" = true ∧
    (wait_for fixBad.probes 1).1 = .ok () ∧
    (∃ f ∈ fixBad.fragments, ∃ fault, parse_result_core f = .error fault) ∧
    DEBUG = false ∧
    ∃ fault, (run_cli fixBad true "Berlin" "Hamburg" "2026-12-01" "2026-10-12" 1).1 =
      .error (.busliniensucheParsingError fault) :=
  ⟨rfl, rfl, ⟨badFrag, by simp [fixBad], ParseFault.missingField "price", rfl⟩,
   (c10_debug_branch_unreachable fixBad true "Berlin" "Hamburg" "2026-12-01" "2026-10-12" 1 rfl
      rfl ⟨badFrag, by simp [fixBad], ParseFault.missingField "price", rfl⟩).1,
   (c10_debug_branch_unreachable fixBad true "Berlin" "Hamburg" "2026-12-01" "2026-10-12" 1 rfl
      rfl ⟨badFrag, by simp [fixBad], ParseFault.missingField "price", rfl⟩).2⟩

end Fernbus

namespace Fernbus

/-! ### Claim C8 -/

theorem get_results_ok {fix : Fixture} {o d date today : String} {mp : Nat}
    {frags : List Fragment} {gev : List Event}
    (h : get_results fix o d date today mp = (.ok frags, gev)) : frags = fix.fragments := by
  unfold get_results at h
  by_cases hd : pyStrLe today date = true
  · rw [if_pos hd] at h
    rcases hw : wait_for fix.probes mp with ⟨w1, wev⟩
    rw [hw] at h
    cases w1 with
    | ok u =>
      simp only [Prod.mk.injEq, Except.ok.injEq] at h
      exact h.1.symm
    | error e => simp at h
  · rw [if_neg hd] at h
    simp at h

theorem loop_ok_forall2 :
    ∀ (fs : List Fragment) (cs : List (Option Connection)) (ev : List Event),
      parse_results_loop false fs = (.ok cs, ev) →
      List.Forall₂ (fun frag oc => ∃ c, parse_result_core frag = .ok c ∧ oc = some c) fs cs := by
  intro fs
  induction fs with
  | nil =>
    intro cs ev h
    simp only [parse_results_loop, Prod.mk.injEq, Except.ok.injEq] at h
    rw [← h.1]
    exact List.Forall₂.nil
  | cons g rest ih =>
    intro cs ev h
    cases hg : parse_result_core g with
    | error e => simp [parse_results_loop, parse_result, hg] at h
    | ok cg =>
      rcases hl : parse_results_loop false rest with ⟨r1, rev⟩
      cases r1 with
      | error e => simp [parse_results_loop, parse_result, hg, hl] at h
      | ok cs' =>
        have hcs : cs = some cg :: cs' := by
          rw [show parse_results_loop false (g :: rest) =
            (.ok (some cg :: cs'), ([] : List Event) ++ rev) from by
              simp [parse_results_loop, parse_result, hg, hl]] at h
          simp only [Prod.mk.injEq, Except.ok.injEq] at h
          exact h.1.symm
        rw [hcs]
        exact List.Forall₂.cons ⟨cg, hg, rfl⟩ (ih cs' rev hl)

/-- C8: the pipeline is deterministic over a fixed page fixture — two calls
with identical inputs are equal — and on success the returned records
correspond one-to-one, in DOM encounter order, to the result fragments the
fixture enumerates (no re-sorting by this layer). -/
theorem c8_deterministic_dom_order (fix : Fixture) (o d date today : String) (mp : Nat)
    (conns : List (Option Connection)) (tr : List Event)
    (h : find_bus_connections fix o d date today mp = (.ok conns, tr)) :
    find_bus_connections fix o d date today mp = find_bus_connections fix o d date today mp ∧
    List.Forall₂ (fun frag oc => ∃ c, parse_result_core frag = .ok c ∧ oc = some c)
      fix.fragments conns := by
  refine ⟨rfl, ?_⟩
  unfold find_bus_connections at h
  rcases hg : get_results fix o d date today mp with ⟨g1, gev⟩
  rw [hg] at h
  cases g1 with
  | error e => simp at h
  | ok frags =>
    have hfr : frags = fix.fragments := get_results_ok hg
    dsimp only at h
    rcases hl : parse_results_loop DEBUG frags with ⟨l1, lev⟩
    rw [hl] at h
    cases l1 with
    | error e => simp at h
    | ok cs =>
      simp only [Prod.mk.injEq, Except.ok.injEq] at h
      rw [← h.1]
      rw [show DEBUG = false from rfl] at hl
      have hall := loop_ok_forall2 frags cs lev hl
      rw [hfr] at hall
      exact hall

/-- C8 witness: the theorem applied at a concrete fixed fixture; the single
good fragment yields the single corresponding record, in order. -/
theorem c8_witness :
    find_bus_connections fixOk "Berlin" "Hamburg" "2026-12-01" "2026-10-12" 1 =
      (.ok [some goodConn],
       [Event.newSession, Event.setAttribute "auto_load_images" false,
        Event.visit SEARCH_PAGE, Event.atCss "#From", Event.setField "#From" "Berlin",
        Event.atCss "#To", Event.setField "#To" "Hamburg", Event.atCss "#When",
        Event.setField "#When" "2026-12-01", Event.atCss ".btn-warning",
        Event.click ".btn-warning", Event.cssSelect "div.search-result",
        Event.cssSelect "div.search-result"]) ∧
    List.Forall₂ (fun frag oc => ∃ c, parse_result_core frag = .ok c ∧ oc = some c)
      fixOk.fragments [some goodConn] :=
  ⟨rfl,
   (c8_deterministic_dom_order fixOk "Berlin" "Hamburg" "2026-12-01" "2026-10-12" 1
      [some goodConn]
      [Event.newSession, Event.setAttribute "auto_load_images" false,
       Event.visit SEARCH_PAGE, Event.atCss "#From", Event.setField "#From" "Berlin",
       Event.atCss "#To", Event.setField "#To" "Hamburg", Event.atCss "#When",
       Event.setField "#When" "2026-12-01", Event.atCss ".btn-warning",
       Event.click ".btn-warning", Event.cssSelect "div.search-result",
       Event.cssSelect "div.search-result"] rfl).2⟩

end Fernbus
